import Mathlib

/-!
Shallow embedding of `src/manual_blocktales_wolfboi008/hooks/Options.py`.

The module declares a catalog of option classes (subclasses of the host
framework's `Toggle`, `DefaultOnToggle`, `Choice`, `Range`), a registration
hook `before_options_defined` that writes 12 of them into a host-owned
dictionary, a visibility post-processor `after_options_defined` that sets
`visibility = Visibility.none` on 11 host-defined keys, and two identity
passthrough hooks for option groups.

Option classes are embedded as `OptionDef` records: the semantic kind
(with its range bounds or choice enumeration), the class-level `default`
attribute if the class body assigns one, and the class-level `display_name`
attribute if the class body assigns one.  A Python class body line of the
form `display_name: "..."` is a bare annotation: it assigns no attribute,
so such classes are embedded with `displayName = none`.

Registries (Python dicts) are embedded as functions `String → Option _`;
dictionary assignment is function update, and a `KeyError` on a missing
key is modelled by an explicit error component carrying the missing key.
-/

/-- The semantic kind of an option, with its kind-specific payload:
`range` carries the class attributes `range_start` and `range_end`,
`choice` carries the `option_* = code` enumeration in declaration order. -/
inductive OptionKind where
  | toggle
  | defaultOnToggle
  | choice (choices : List (String × Int))
  | range (range_start range_end : Int)
  deriving DecidableEq, Repr

/-- An option class as declared in the module: its kind, the class-level
`default` attribute when the class body assigns one, and the class-level
`display_name` attribute when the class body assigns one (a bare
annotation `display_name: "..."` assigns nothing). -/
structure OptionDef where
  kind : OptionKind
  default : Option Int
  displayName : Option String
  deriving DecidableEq, Repr

/-- Modelled from the spec: the host base classes (not part of this
repository's sources) resolve the default when a class assigns none:
a `Toggle` defaults to off (0), a `DefaultOnToggle` to on (1), a `Choice`
to code 0, and the host's generic fallback is 0. -/
def OptionDef.defaultValue (d : OptionDef) : Int :=
  match d.default with
  | some v => v
  | none =>
    match d.kind with
    | OptionKind.toggle => 0
    | OptionKind.defaultOnToggle => 1
    | OptionKind.choice _ => 0
    | OptionKind.range _ _ => 0

/-- `class TotalCharactersToWinWith(Range)`: `range_start = 10`,
`range_end = 50`, `default = 50`, with an assigned `display_name`. -/
def TotalCharactersToWinWith : OptionDef :=
  { kind := OptionKind.range 10 50
    default := some 50
    displayName := some "Number of characters to beat the game with before victory" }

/-- `class SoloMode(Toggle)`; `display_name: "Solo Mode"` is a bare
annotation, so no display name is assigned. -/
def SoloMode : OptionDef :=
  { kind := OptionKind.toggle, default := none, displayName := none }

/-- `class ISpyLogic(DefaultOnToggle)`; bare `display_name` annotation. -/
def ISpyLogic : OptionDef :=
  { kind := OptionKind.defaultOnToggle, default := none, displayName := none }

/-- `class Shopsanity(Toggle)`; bare `display_name` annotation. -/
def Shopsanity : OptionDef :=
  { kind := OptionKind.toggle, default := none, displayName := none }

/-- `class BUXShopHints(DefaultOnToggle)`; bare `display_name` annotation. -/
def BUXShopHints : OptionDef :=
  { kind := OptionKind.defaultOnToggle, default := none, displayName := none }

/-- `class Levelsanity(DefaultOnToggle)`; bare `display_name` annotation. -/
def Levelsanity : OptionDef :=
  { kind := OptionKind.defaultOnToggle, default := none, displayName := none }

/-- `class Fishsanity(DefaultOnToggle)`; bare `display_name` annotation. -/
def Fishsanity : OptionDef :=
  { kind := OptionKind.defaultOnToggle, default := none, displayName := none }

/-- `class Chatsanity(Toggle)`; bare `display_name` annotation. -/
def Chatsanity : OptionDef :=
  { kind := OptionKind.toggle, default := none, displayName := none }

/-- `class CAP(Choice)`: `option_i_agree = 0`, `option_i_disagree = 1`,
no `default` assignment; bare `display_name` annotation. -/
def CAP : OptionDef :=
  { kind := OptionKind.choice [("i_agree", 0), ("i_disagree", 1)]
    default := none
    displayName := none }

/-- `class Cutscenesanity(DefaultOnToggle)`; bare `display_name` annotation. -/
def Cutscenesanity : OptionDef :=
  { kind := OptionKind.defaultOnToggle, default := none, displayName := none }

/-- `class ThePit(Toggle)`; bare `display_name` annotation. -/
def ThePit : OptionDef :=
  { kind := OptionKind.toggle, default := none, displayName := none }

/-- `class DisablePostGoalContent(DefaultOnToggle)`; bare `display_name`
annotation. -/
def DisablePostGoalContent : OptionDef :=
  { kind := OptionKind.defaultOnToggle, default := none, displayName := none }

/-- `class SoulType(Choice)`: `option_pure = 0`, `option_dark = 1`,
no `default` assignment; bare `display_name` annotation. -/
def SoulType : OptionDef :=
  { kind := OptionKind.choice [("pure", 0), ("dark", 1)]
    default := none
    displayName := none }

/-- The option registry passed to `before_options_defined`: a Python dict
from key to option class, embedded as a partial function. -/
abbrev Registry := String → Option OptionDef

/-- Dictionary assignment `m[k] = v`: function update. -/
def insertOpt (k : String) (v : OptionDef) (m : Registry) : Registry :=
  fun q => if q = k then some v else m q

/-- `before_options_defined(options)`: the 12 assignments
`options["solo_mode"] = SoloMode` … `options["soul_type"] = SoulType`
performed in source order (a later assignment is the outer update), then
`return options`.  `TotalCharactersToWinWith` is declared in the module
but never assigned into the dict. -/
def before_options_defined (options : Registry) : Registry :=
  insertOpt "soul_type" SoulType
    (insertOpt "disable_postgoal_content" DisablePostGoalContent
      (insertOpt "the_pit" ThePit
        (insertOpt "cutscenesanity" Cutscenesanity
          (insertOpt "cap" CAP
            (insertOpt "chatsanity" Chatsanity
              (insertOpt "fishsanity" Fishsanity
                (insertOpt "levelsanity" Levelsanity
                  (insertOpt "bux_shop_hints" BUXShopHints
                    (insertOpt "shopsanity" Shopsanity
                      (insertOpt "i_spy_logic" ISpyLogic
                        (insertOpt "solo_mode" SoloMode options)))))))))))

/-- The 12 key/class pairs actually written by `before_options_defined`,
in source order. -/
def writtenCatalog : List (String × OptionDef) :=
  [("solo_mode", SoloMode),
   ("i_spy_logic", ISpyLogic),
   ("shopsanity", Shopsanity),
   ("bux_shop_hints", BUXShopHints),
   ("levelsanity", Levelsanity),
   ("fishsanity", Fishsanity),
   ("chatsanity", Chatsanity),
   ("cap", CAP),
   ("cutscenesanity", Cutscenesanity),
   ("the_pit", ThePit),
   ("disable_postgoal_content", DisablePostGoalContent),
   ("soul_type", SoulType)]

/-- The keys written by `before_options_defined`. -/
def writtenKeys : List String := writtenCatalog.map Prod.fst

/-- The empty registry: a fresh dict with no bindings. -/
def emptyRegistry : Registry := fun _ => none

/-- The host's `Visibility` flag as used here: `hidden` embeds the value
`Visibility.none` that the hook assigns, `visible` any player-facing value. -/
inductive Visibility where
  | visible
  | hidden
  deriving DecidableEq, Repr

/-- An entry of `options.type_hints` in `after_options_defined`: a host
option class, split into its mutable `visibility` attribute and all of its
other attributes (`info`), which the hook never touches. -/
structure OptionClass where
  visibility : Visibility
  info : OptionDef
  deriving DecidableEq, Repr

/-- The final option set `options.type_hints`: a dict from key to option
class, embedded as a partial function. -/
abbrev TypeHints := String → Option OptionClass

/-- The attribute assignment `c.visibility = Visibility.none`: only the
visibility attribute changes. -/
def hideC (c : OptionClass) : OptionClass :=
  { c with visibility := Visibility.hidden }

/-- In-place effect of `options.type_hints[k].visibility = Visibility.none`
when `options.type_hints[k]` is the entry `c`: the dict now maps `k` to
the hidden entry and every other key to what it mapped to before. -/
def updateHidden (k : String) (c : OptionClass) (o : TypeHints) : TypeHints :=
  fun q => if q = k then some (hideC c) else o q

/-- Sequential execution of the statements
`options.type_hints[k].visibility = Visibility.none` for `k` in `ks`:
each statement looks the key up and, when present, updates that entry in
place; a missing key raises `KeyError(k)`, embedded as the second
component `some k`, with the updates already made kept in the first
component (no rollback). -/
def hideAll : List String → TypeHints → TypeHints × Option String
  | [], o => (o, none)
  | k :: ks, o =>
    match o k with
    | some c => hideAll ks (updateHidden k c o)
    | none => (o, some k)

/-- The 11 keys hidden by `after_options_defined`, in source order. -/
def hiddenKeys : List String :=
  ["co_op", "bux_shop", "shopsanity_currency", "pure_soul", "dark_soul",
   "pre_prologue", "prologue", "chapter1", "chapter2", "chapter3", "chapter4"]

/-- `after_options_defined(options)`: sets `visibility = Visibility.none`
on the 11 keys of `hiddenKeys`, sequentially, mutating
`options.type_hints` in place; the error component is the propagated
`KeyError` when one of the lookups fails. -/
def after_options_defined (options : TypeHints) : TypeHints × Option String :=
  hideAll hiddenKeys options

/-- The group dict passed to `before_option_groups_created`. -/
abbrev GroupsDict := String → Option (List OptionDef)

/-- A host `OptionGroup` as received by `after_option_groups_created`,
embedded minimally (the hook never inspects it). -/
structure OptionGroup where
  name : String
  options : List OptionDef
  deriving DecidableEq, Repr

/-- `before_option_groups_created(groups)`: `return groups`. -/
def before_option_groups_created (groups : GroupsDict) : GroupsDict :=
  groups

/-- `after_option_groups_created(groups)`: `return groups`. -/
def after_option_groups_created (groups : List OptionGroup) : List OptionGroup :=
  groups

/-- A sample option class entry used by concrete witnesses. -/
def sampleEntry : OptionClass :=
  { visibility := Visibility.visible, info := SoloMode }

/-- A final option set binding all 11 hidden keys plus one unrelated key,
all visible: the scenario registry of the spec. -/
def fullHints : TypeHints :=
  fun q => if q ∈ hiddenKeys ∨ q = "unrelated_key" then some sampleEntry else none

/-- A final option set binding only the first two hidden keys, so the
third (`shopsanity_currency`) is the first missing one. -/
def missingKeyHints : TypeHints :=
  fun q => if q = "co_op" ∨ q = "bux_shop" then some sampleEntry else none

theorem hideC_hideC (c : OptionClass) : hideC (hideC c) = hideC c := rfl

theorem updateHidden_same (k : String) (c : OptionClass) (o : TypeHints) :
    updateHidden k c o k = some (hideC c) := by
  simp [updateHidden]

theorem updateHidden_other (k : String) (c : OptionClass) (o : TypeHints)
    (q : String) (h : q ≠ k) : updateHidden k c o q = o q := by
  simp [updateHidden, h]

theorem updateHidden_isSome (k : String) (c : OptionClass) (o : TypeHints)
    (hc : o k = some c) (q : String) :
    (updateHidden k c o q).isSome = (o q).isSome := by
  by_cases hq : q = k
  · subst hq; simp [updateHidden, hc]
  · simp [updateHidden, hq]

theorem updateHidden_isNone (k : String) (c : OptionClass) (o : TypeHints)
    (hc : o k = some c) (q : String) :
    (updateHidden k c o q).isNone = (o q).isNone := by
  by_cases hq : q = k
  · subst hq; simp [updateHidden, hc]
  · simp [updateHidden, hq]

theorem hideAll_cons_some (k : String) (ks : List String) (o : TypeHints)
    (c : OptionClass) (hc : o k = some c) :
    hideAll (k :: ks) o = hideAll ks (updateHidden k c o) := by
  simp [hideAll, hc]

theorem hideAll_cons_none (k : String) (ks : List String) (o : TypeHints)
    (hc : o k = none) : hideAll (k :: ks) o = (o, some k) := by
  simp [hideAll, hc]

/-- When every key of `ks` is present, `hideAll` succeeds, hides exactly
the keys of `ks` (preserving their other attributes) and leaves every
other key untouched. -/
theorem hideAll_ok (ks : List String) : ∀ o : TypeHints,
    (∀ k ∈ ks, (o k).isSome = true) →
    (hideAll ks o).2 = none
    ∧ (∀ k ∈ ks, (hideAll ks o).1 k = (o k).map hideC)
    ∧ (∀ q, q ∉ ks → (hideAll ks o).1 q = o q) := by
  induction ks with
  | nil =>
    intro o _
    exact ⟨rfl, by simp, fun q _ => rfl⟩
  | cons k ks ih =>
    intro o h
    obtain ⟨c, hc⟩ := Option.isSome_iff_exists.mp (h k (List.mem_cons_self k ks))
    have hrec := hideAll_cons_some k ks o c hc
    have h1 : ∀ k' ∈ ks, (updateHidden k c o k').isSome = true := by
      intro k' hk'
      rw [updateHidden_isSome k c o hc]
      exact h k' (List.mem_cons_of_mem _ hk')
    obtain ⟨e1, e2, e3⟩ := ih (updateHidden k c o) h1
    refine ⟨by rw [hrec]; exact e1, ?_, ?_⟩
    · intro k' hk'
      rw [hrec]
      by_cases hmem : k' ∈ ks
      · rw [e2 k' hmem]
        by_cases hkk : k' = k
        · subst hkk
          rw [updateHidden_same, hc]
          simp [hideC_hideC]
        · rw [updateHidden_other k c o k' hkk]
      · have hkk : k' = k := by
          rcases List.mem_cons.mp hk' with h' | h'
          · exact h'
          · exact absurd h' hmem
        subst hkk
        rw [e3 k' hmem, updateHidden_same, hc]
        rfl
    · intro q hq
      have hq1 : q ∉ ks := fun h' => hq (List.mem_cons_of_mem _ h')
      have hqk : q ≠ k := fun h' => hq (h' ▸ List.mem_cons_self k ks)
      rw [hrec, e3 q hq1, updateHidden_other k c o q hqk]

/-- When some key of `ks` is missing, `hideAll` stops at the first
missing key and reports it; the keys before it are already hidden and
every key outside that processed prefix is untouched. -/
theorem hideAll_err (ks : List String) : ∀ (o : TypeHints) (k0 : String),
    ks.find? (fun q => (o q).isNone) = some k0 →
    (hideAll ks o).2 = some k0
    ∧ (∀ k ∈ ks.takeWhile (fun q => (o q).isSome),
        (hideAll ks o).1 k = (o k).map hideC)
    ∧ (∀ q, q ∉ ks.takeWhile (fun q => (o q).isSome) →
        (hideAll ks o).1 q = o q) := by
  induction ks with
  | nil => intro o k0 h; simp at h
  | cons k ks ih =>
    intro o k0 h
    cases hc : o k with
    | none =>
      have hpk : ((fun q => (o q).isNone) k) = true := by simp [hc]
      rw [List.find?_cons_of_pos ks hpk] at h
      have hk0 := Option.some.inj h
      subst hk0
      have htw : (k :: ks).takeWhile (fun q => (o q).isSome) = [] := by
        rw [List.takeWhile_cons_of_neg]
        simp [hc]
      rw [hideAll_cons_none k ks o hc, htw]
      exact ⟨rfl, by simp, fun q _ => rfl⟩
    | some c =>
      have hpk : ¬ ((fun q => (o q).isNone) k = true) := by simp [hc]
      rw [List.find?_cons_of_neg ks hpk] at h
      have hfun : (fun q => (updateHidden k c o q).isNone)
          = (fun q => (o q).isNone) := funext (updateHidden_isNone k c o hc)
      have hfun2 : (fun q => (updateHidden k c o q).isSome)
          = (fun q => (o q).isSome) := funext (updateHidden_isSome k c o hc)
      have h' : ks.find? (fun q => (updateHidden k c o q).isNone) = some k0 := by
        rw [hfun]; exact h
      obtain ⟨e1, e2, e3⟩ := ih (updateHidden k c o) k0 h'
      rw [hfun2] at e2 e3
      have hrec := hideAll_cons_some k ks o c hc
      have htw : (k :: ks).takeWhile (fun q => (o q).isSome)
          = k :: ks.takeWhile (fun q => (o q).isSome) := by
        rw [List.takeWhile_cons_of_pos]
        simp [hc]
      refine ⟨by rw [hrec]; exact e1, ?_, ?_⟩
      · intro k' hk'
        rw [htw] at hk'
        rw [hrec]
        by_cases hmem : k' ∈ ks.takeWhile (fun q => (o q).isSome)
        · rw [e2 k' hmem]
          by_cases hkk : k' = k
          · subst hkk
            rw [updateHidden_same, hc]
            simp [hideC_hideC]
          · rw [updateHidden_other k c o k' hkk]
        · have hkk : k' = k := by
            rcases List.mem_cons.mp hk' with h'' | h''
            · exact h''
            · exact absurd h'' hmem
          subst hkk
          rw [e3 k' hmem, updateHidden_same, hc]
          rfl
      · intro q hq
        rw [htw] at hq
        have hq1 : q ∉ ks.takeWhile (fun q => (o q).isSome) :=
          fun h'' => hq (List.mem_cons_of_mem _ h'')
        have hqk : q ≠ k := fun h'' => hq (h'' ▸ List.mem_cons_self k _)
        rw [hrec, e3 q hq1, updateHidden_other k c o q hqk]

/-- C1, counterexample: the claim says that after `before_options_defined`
each of the 13 catalog keys looks up to a matching definition, but the key
`total_characters_to_win_with` is never written by the hook — on a fresh
registry its lookup returns nothing. -/
theorem C1_total_characters_not_registered :
    before_options_defined emptyRegistry "total_characters_to_win_with" = none := by
  decide

/-- C1 (amended): for every input registry, after `before_options_defined`
each of the 12 keys the hook actually writes looks up to its catalog class,
whose kind, resolved default and bounds/choices match the §4.1 table;
`total_characters_to_win_with` is declared in the module but not written. -/
theorem C1_registered_catalog_matches_table (m : Registry) :
    (before_options_defined m "solo_mode" = some SoloMode
      ∧ SoloMode.kind = OptionKind.toggle ∧ SoloMode.defaultValue = 0)
    ∧ (before_options_defined m "i_spy_logic" = some ISpyLogic
      ∧ ISpyLogic.kind = OptionKind.defaultOnToggle ∧ ISpyLogic.defaultValue = 1)
    ∧ (before_options_defined m "shopsanity" = some Shopsanity
      ∧ Shopsanity.kind = OptionKind.toggle ∧ Shopsanity.defaultValue = 0)
    ∧ (before_options_defined m "bux_shop_hints" = some BUXShopHints
      ∧ BUXShopHints.kind = OptionKind.defaultOnToggle ∧ BUXShopHints.defaultValue = 1)
    ∧ (before_options_defined m "levelsanity" = some Levelsanity
      ∧ Levelsanity.kind = OptionKind.defaultOnToggle ∧ Levelsanity.defaultValue = 1)
    ∧ (before_options_defined m "fishsanity" = some Fishsanity
      ∧ Fishsanity.kind = OptionKind.defaultOnToggle ∧ Fishsanity.defaultValue = 1)
    ∧ (before_options_defined m "chatsanity" = some Chatsanity
      ∧ Chatsanity.kind = OptionKind.toggle ∧ Chatsanity.defaultValue = 0)
    ∧ (before_options_defined m "cap" = some CAP
      ∧ CAP.kind = OptionKind.choice [("i_agree", 0), ("i_disagree", 1)]
      ∧ CAP.defaultValue = 0)
    ∧ (before_options_defined m "cutscenesanity" = some Cutscenesanity
      ∧ Cutscenesanity.kind = OptionKind.defaultOnToggle ∧ Cutscenesanity.defaultValue = 1)
    ∧ (before_options_defined m "the_pit" = some ThePit
      ∧ ThePit.kind = OptionKind.toggle ∧ ThePit.defaultValue = 0)
    ∧ (before_options_defined m "disable_postgoal_content" = some DisablePostGoalContent
      ∧ DisablePostGoalContent.kind = OptionKind.defaultOnToggle
      ∧ DisablePostGoalContent.defaultValue = 1)
    ∧ (before_options_defined m "soul_type" = some SoulType
      ∧ SoulType.kind = OptionKind.choice [("pure", 0), ("dark", 1)]
      ∧ SoulType.defaultValue = 0) := by
  repeat' apply And.intro
  all_goals first
    | decide
    | simp [before_options_defined, insertOpt]

/-- C2: when one of the 11 visibility targets is missing from the final
option set, `after_options_defined` propagates a key-not-found error for
the first missing key in source order; every target before it has already
been hidden, and every key outside the processed prefix is untouched
(partial update before failure, no rollback). -/
theorem C2_hide_partial_failure (o : TypeHints) (k0 : String)
    (h : hiddenKeys.find? (fun q => (o q).isNone) = some k0) :
    (after_options_defined o).2 = some k0
    ∧ (∀ k ∈ hiddenKeys.takeWhile (fun q => (o q).isSome),
        (after_options_defined o).1 k = (o k).map hideC)
    ∧ (∀ q, q ∉ hiddenKeys.takeWhile (fun q => (o q).isSome) →
        (after_options_defined o).1 q = o q) :=
  hideAll_err hiddenKeys o k0 h

theorem C2_hide_partial_failure_witness :
    hiddenKeys.find? (fun q => (missingKeyHints q).isNone) = some "shopsanity_currency"
    ∧ ((after_options_defined missingKeyHints).2 = some "shopsanity_currency"
      ∧ (∀ k ∈ hiddenKeys.takeWhile (fun q => (missingKeyHints q).isSome),
          (after_options_defined missingKeyHints).1 k = (missingKeyHints k).map hideC)
      ∧ (∀ q, q ∉ hiddenKeys.takeWhile (fun q => (missingKeyHints q).isSome) →
          (after_options_defined missingKeyHints).1 q = missingKeyHints q)) :=
  ⟨by decide,
   C2_hide_partial_failure missingKeyHints "shopsanity_currency" (by decide)⟩

/-- C3: when all 11 visibility targets are present, `after_options_defined`
succeeds, sets exactly those 11 keys to hidden — preserving their other
attributes, since `hideC` only changes the visibility field — and leaves
every other key's binding entirely unchanged. -/
theorem C3_hide_exactly_targets (o : TypeHints)
    (h : ∀ k ∈ hiddenKeys, (o k).isSome = true) :
    (after_options_defined o).2 = none
    ∧ (∀ k ∈ hiddenKeys, (after_options_defined o).1 k = (o k).map hideC)
    ∧ (∀ q, q ∉ hiddenKeys → (after_options_defined o).1 q = o q) :=
  hideAll_ok hiddenKeys o h

theorem C3_hide_exactly_targets_witness :
    (∀ k ∈ hiddenKeys, (fullHints k).isSome = true)
    ∧ ((after_options_defined fullHints).2 = none
      ∧ (∀ k ∈ hiddenKeys, (after_options_defined fullHints).1 k = (fullHints k).map hideC)
      ∧ (∀ q, q ∉ hiddenKeys → (after_options_defined fullHints).1 q = fullHints q)) :=
  ⟨by decide, C3_hide_exactly_targets fullHints (by decide)⟩

/-- C4: `before_options_defined` is a total function with no failure path,
and it unconditionally overwrites any prior binding of a key it writes:
whatever class `d` the key was bound to before the hook, afterwards the key
is bound to its catalog class. -/
theorem C4_register_total_overwrites (m : Registry) (d : OptionDef)
    (k : String) (v : OptionDef) (h : (k, v) ∈ writtenCatalog) :
    before_options_defined (insertOpt k d m) k = some v := by
  fin_cases h <;> simp [before_options_defined, insertOpt]

theorem C4_register_total_overwrites_witness :
    ("cap", CAP) ∈ writtenCatalog
    ∧ before_options_defined (insertOpt "cap" SoloMode emptyRegistry) "cap" = some CAP :=
  ⟨by decide,
   C4_register_total_overwrites emptyRegistry SoloMode "cap" CAP (by decide)⟩

/-- Pointwise characterization of `before_options_defined`: the result
binds each written key to its catalog class and defers to the input map
on every other key. -/
theorem before_options_defined_apply (m : Registry) (q : String) :
    before_options_defined m q =
      if q = "soul_type" then some SoulType
      else if q = "disable_postgoal_content" then some DisablePostGoalContent
      else if q = "the_pit" then some ThePit
      else if q = "cutscenesanity" then some Cutscenesanity
      else if q = "cap" then some CAP
      else if q = "chatsanity" then some Chatsanity
      else if q = "fishsanity" then some Fishsanity
      else if q = "levelsanity" then some Levelsanity
      else if q = "bux_shop_hints" then some BUXShopHints
      else if q = "shopsanity" then some Shopsanity
      else if q = "i_spy_logic" then some ISpyLogic
      else if q = "solo_mode" then some SoloMode
      else m q := rfl

/-- C5: registering the catalog twice into the same registry is idempotent:
applying `before_options_defined` twice yields the same final registry
state as applying it once. -/
theorem C5_register_idempotent (m : Registry) :
    before_options_defined (before_options_defined m) = before_options_defined m := by
  funext q
  rw [before_options_defined_apply, before_options_defined_apply m q]
  by_cases h1 : q = "soul_type"
  · simp only [if_pos h1]
  · simp only [if_neg h1]
    by_cases h2 : q = "disable_postgoal_content"
    · simp only [if_pos h2]
    · simp only [if_neg h2]
      by_cases h3 : q = "the_pit"
      · simp only [if_pos h3]
      · simp only [if_neg h3]
        by_cases h4 : q = "cutscenesanity"
        · simp only [if_pos h4]
        · simp only [if_neg h4]
          by_cases h5 : q = "cap"
          · simp only [if_pos h5]
          · simp only [if_neg h5]
            by_cases h6 : q = "chatsanity"
            · simp only [if_pos h6]
            · simp only [if_neg h6]
              by_cases h7 : q = "fishsanity"
              · simp only [if_pos h7]
              · simp only [if_neg h7]
                by_cases h8 : q = "levelsanity"
                · simp only [if_pos h8]
                · simp only [if_neg h8]
                  by_cases h9 : q = "bux_shop_hints"
                  · simp only [if_pos h9]
                  · simp only [if_neg h9]
                    by_cases h10 : q = "shopsanity"
                    · simp only [if_pos h10]
                    · simp only [if_neg h10]
                      by_cases h11 : q = "i_spy_logic"
                      · simp only [if_pos h11]
                      · simp only [if_neg h11]
                        by_cases h12 : q = "solo_mode"
                        · simp only [if_pos h12]
                        · simp only [if_neg h12]

/-- C6: `before_option_groups_created` and `after_option_groups_created`
are identity passthroughs: each returns its argument unchanged. -/
theorem C6_group_hooks_identity :
    (∀ g : GroupsDict, before_option_groups_created g = g)
    ∧ (∀ g : List OptionGroup, after_option_groups_created g = g) :=
  ⟨fun _ => rfl, fun _ => rfl⟩

/-- C7: `TotalCharactersToWinWith` is declared as a Range with inclusive
bounds exactly 10 and 50 and an assigned default of 50, which lies within
those bounds; the module only declares the bounds (no enforcement exists
in it). -/
theorem C7_total_characters_bounds :
    TotalCharactersToWinWith.kind = OptionKind.range 10 50
    ∧ TotalCharactersToWinWith.default = some 50
    ∧ TotalCharactersToWinWith.defaultValue = 50
    ∧ 10 ≤ TotalCharactersToWinWith.defaultValue
    ∧ TotalCharactersToWinWith.defaultValue ≤ 50 := by
  decide

/-- C8: `CAP` is declared as a Choice with exactly the enumeration
`i_agree = 0`, `i_disagree = 1`; the class assigns no default, so the
resolved default is code 0 (`i_agree`). -/
theorem C8_cap_choice_default :
    CAP.kind = OptionKind.choice [("i_agree", 0), ("i_disagree", 1)]
    ∧ CAP.default = none
    ∧ CAP.defaultValue = 0 := by
  decide

/-- C9: `before_options_defined` returns the received mapping mutated in
place; every key outside the 12 written keys is bound in the result to
exactly the value it had in the input. -/
theorem C9_register_frame (m : Registry) (k : String) (h : k ∉ writtenKeys) :
    before_options_defined m k = m k := by
  simp [writtenKeys, writtenCatalog] at h
  obtain ⟨h1, h2, h3, h4, h5, h6, h7, h8, h9, h10, h11, h12⟩ := h
  simp [before_options_defined, insertOpt, h1, h2, h3, h4, h5, h6, h7, h8,
    h9, h10, h11, h12]

theorem C9_register_frame_witness :
    "goal" ∉ writtenKeys
    ∧ before_options_defined emptyRegistry "goal" = emptyRegistry "goal" :=
  ⟨by decide, C9_register_frame emptyRegistry "goal" (by decide)⟩

/-- C10: among the 13 option classes, only `TotalCharactersToWinWith`
assigns a `display_name`; every other class uses a bare annotation that
sets no attribute, so it carries no module-defined display name. -/
theorem C10_display_name_only_total_characters :
    TotalCharactersToWinWith.displayName
        = some "Number of characters to beat the game with before victory"
    ∧ SoloMode.displayName = none
    ∧ ISpyLogic.displayName = none
    ∧ Shopsanity.displayName = none
    ∧ BUXShopHints.displayName = none
    ∧ Levelsanity.displayName = none
    ∧ Fishsanity.displayName = none
    ∧ Chatsanity.displayName = none
    ∧ CAP.displayName = none
    ∧ Cutscenesanity.displayName = none
    ∧ ThePit.displayName = none
    ∧ DisablePostGoalContent.displayName = none
    ∧ SoulType.displayName = none := by
  decide
